import Mathlib

/-!
URL_Lambda, the pre-signed upload URL handler.

A shallow embedding of `src/AWS/Lambda_Function/URL_Lambda/index.mjs`.

The handler is one `try`/`catch` around five steps: read `event.body`,
`JSON.parse` it, read `.filename`, build the key with a template literal, and
ask the AWS SDK for a pre-signed URL.  Everything the handler does itself
(property reads, the string conversion of the template literal, the two
`JSON.stringify` calls on flat objects of strings, the `catch`) is modelled
here.  The two things it calls and does not define are parameters of the
model: the text-to-value function `JSON.parse` and the SDK call
`getSignedUrl`.

Modelling choices:
* a JavaScript string is a Lean `String`;
* a JavaScript number is carried by its decimal rendering
  (`Number.prototype.toString`), the only observation the handler can make of
  a number (inside the template literal);
* `undefined` is `none` in `Option Json`;
* the `async` function's promise is `Except JsError Envelope`: `.ok` when it
  resolves, `.error` when it rejects;
* calls to `getSignedUrl` and to `console.error` are recorded in the
  `Completion` next to the result.
-/

namespace UrlLambda

/-! ## Values -/

/-- An exception value: the two built-in kinds the handler itself can raise and
whatever else a collaborator may throw. -/
inductive JsError where
  | syntaxError (message : String)
  | typeError (message : String)
  | other (name message : String)
  deriving DecidableEq, Repr

/-- A value built by `JSON.parse` (and the deserialised invocation payload).
An object is the list of its own properties in insertion order. -/
inductive Json where
  | null
  | bool (b : Bool)
  | num (rendering : String)
  | str (s : String)
  | arr (items : List Json)
  | obj (members : List (String × Json))
  deriving Repr

/-- A JavaScript value as the handler meets it: `none` is `undefined`. -/
abbrev JsValue := Option Json

/-- Own property `name` of an object given by its members.  When a key occurs
more than once the later member wins, as in `JSON.parse`. -/
def ownProperty (name : String) : List (String × Json) → JsValue
  | [] => none
  | (k, v) :: rest =>
    match ownProperty name rest with
    | some w => some w
    | none => if k = name then some v else none

/-- The member access `v.name` for `name` one of `body`, `filename`: neither
is a property of a primitive wrapper, of `Array.prototype` or of
`Object.prototype`, so only an own property of an object can supply it.
Reading a property of `undefined` or `null` throws a `TypeError`. -/
def getProp (v : JsValue) (name : String) : Except JsError JsValue :=
  match v with
  | none =>
    .error (.typeError ("Cannot read properties of undefined (reading " ++ name ++ ")"))
  | some .null =>
    .error (.typeError ("Cannot read properties of null (reading " ++ name ++ ")"))
  | some (.obj members) => .ok (ownProperty name members)
  | some _ => .ok none

/-- Whether an object has an own property called `toString`.  Such a property
comes from `JSON.parse`, so it is never callable, and it shadows
`Object.prototype.toString`. -/
def hasOwnToString (members : List (String × Json)) : Bool :=
  members.any fun m => m.1 == "toString"

mutual
/-- The abstract operation `ToString` on a parsed value.  An array is joined
with commas (`Array.prototype.toString` calls `join`).  A plain object renders
as `[object Object]` unless an own `toString` member shadows the inherited
method: then `OrdinaryToPrimitive` finds no method that returns a primitive
and throws a `TypeError`. -/
def Json.toJsString : Json → Except JsError String
  | .null => .ok "null"
  | .bool true => .ok "true"
  | .bool false => .ok "false"
  | .num rendering => .ok rendering
  | .str s => .ok s
  | .arr items => joinItems items
  | .obj members =>
    if hasOwnToString members then
      .error (.typeError "Cannot convert object to primitive value")
    else .ok "[object Object]"

/-- The element rendering of `Array.prototype.join`: `null` gives the empty
string, any other element its `ToString`. -/
def joinElement : Json → Except JsError String
  | .null => .ok ""
  | .bool true => .ok "true"
  | .bool false => .ok "false"
  | .num rendering => .ok rendering
  | .str s => .ok s
  | .arr items => joinItems items
  | .obj members =>
    if hasOwnToString members then
      .error (.typeError "Cannot convert object to primitive value")
    else .ok "[object Object]"

/-- The body of `Array.prototype.join` with separator `,`, left to right. -/
def joinItems : List Json → Except JsError String
  | [] => .ok ""
  | [x] => joinElement x
  | x :: y :: rest =>
    match joinElement x with
    | .error e => .error e
    | .ok a =>
      match joinItems (y :: rest) with
      | .error e => .error e
      | .ok b => .ok (a ++ "," ++ b)
end

/-- The abstract operation `ToString` on any value the handler meets. -/
def toJsString : JsValue → Except JsError String
  | none => .ok "undefined"
  | some j => j.toJsString

/-! ## `JSON.stringify` on a flat object of strings -/

/-- Lower-case hexadecimal digit of `n < 16`. -/
def hexDigit (n : Nat) : Char :=
  if n < 10 then Char.ofNat (48 + n) else Char.ofNat (87 + n)

/-- The escape of one character in `QuoteJSONString`: the quotation mark, the
backslash and the control characters below U+0020 are escaped, every other
character stands for itself. -/
def quoteChar (c : Char) : List Char :=
  if c.toNat = 34 then [Char.ofNat 92, Char.ofNat 34]
  else if c.toNat = 92 then [Char.ofNat 92, Char.ofNat 92]
  else if c.toNat = 8 then [Char.ofNat 92, 'b']
  else if c.toNat = 9 then [Char.ofNat 92, 't']
  else if c.toNat = 10 then [Char.ofNat 92, 'n']
  else if c.toNat = 12 then [Char.ofNat 92, 'f']
  else if c.toNat = 13 then [Char.ofNat 92, 'r']
  else if c.toNat < 32 then
    [Char.ofNat 92, 'u', '0', '0', hexDigit (c.toNat / 16), hexDigit (c.toNat % 16)]
  else [c]

/-- The characters of `QuoteJSONString s` between the two quotation marks. -/
def quoteChars : List Char → List Char
  | [] => []
  | c :: rest => quoteChar c ++ quoteChars rest

/-- The abstract operation `QuoteJSONString`. -/
def quoteJSONString (s : String) : String :=
  String.mk (Char.ofNat 34 :: (quoteChars s.toList ++ [Char.ofNat 34]))

/-- The members `"k":"v"` of a serialised object, separated by commas. -/
def stringifyMembers : List (String × String) → String
  | [] => ""
  | [(k, v)] => quoteJSONString k ++ ":" ++ quoteJSONString v
  | (k, v) :: m :: rest =>
    quoteJSONString k ++ ":" ++ quoteJSONString v ++ "," ++ stringifyMembers (m :: rest)

/-- `JSON.stringify` of an object literal whose property values are all
strings, the only shape the handler serialises. -/
def jsonStringify (fields : List (String × String)) : String :=
  "\x7b" ++ stringifyMembers fields ++ "\x7d"

/-! ## The handler -/

/-- The region literal (source line 4). -/
def REGION : String := "ap-northeast-2"

/-- The bucket literal (source line 5). -/
def TARGET_BUCKET : String := "fit-bool-p"

/-- The configuration given to `new S3Client`. -/
structure S3Client where
  region : String
  deriving DecidableEq, Repr

/-- The input given to `new PutObjectCommand`. -/
structure PutObjectCommand where
  Bucket : String
  Key : String
  deriving DecidableEq, Repr

/-- The third argument of `getSignedUrl`. -/
structure PresignOptions where
  expiresIn : Nat
  deriving DecidableEq, Repr

/-- The module-level client (source line 7). -/
def s3 : S3Client := { region := REGION }

/-- One call of `getSignedUrl`, with its three arguments. -/
structure SignCall where
  client : S3Client
  command : PutObjectCommand
  options : PresignOptions
  deriving DecidableEq, Repr

/-- What the handler calls and does not define: the built-in `JSON.parse` on
the text of its argument, and the SDK function `getSignedUrl`, each of which
returns or throws. -/
structure Host where
  jsonParse : String → Except JsError Json
  getSignedUrl : S3Client → PutObjectCommand → PresignOptions → Except JsError String

/-- The response object: `headers` is the object literal as the list of its
entries in source order, `body` the serialised text. -/
structure Envelope where
  statusCode : Nat
  headers : List (String × String)
  body : String
  deriving DecidableEq, Repr

/-- Source line 11, `JSON.parse(event.body)`: the read of `event.body`, the
conversion of the argument to a string that `JSON.parse` performs first, and
the parse itself. -/
def parseEventBody (host : Host) (event : JsValue) : Except JsError Json :=
  match getProp event "body" with
  | .error e => .error e
  | .ok rawBody =>
    match toJsString rawBody with
    | .error e => .error e
    | .ok text => host.jsonParse text

/-- Source lines 11 to 15: the parse, the read of `.filename`, and the
template literal `Upload/${originalFileName}`, which converts the value to a
string. -/
def computeFileKey (host : Host) (event : JsValue) : Except JsError String :=
  match parseEventBody host event with
  | .error e => .error e
  | .ok body =>
    match getProp (some body) "filename" with
    | .error e => .error e
    | .ok originalFileName =>
      match toJsString originalFileName with
      | .error e => .error e
      | .ok name => .ok ("Upload/" ++ name)

/-- The envelope of source lines 24 to 36. -/
def successEnvelope (uploadUrl fileKey : String) : Envelope :=
  { statusCode := 200
    headers :=
      [("Content-Type", "application/json"),
       ("Access-Control-Allow-Origin", "*"),
       ("Access-Control-Allow-Methods", "OPTIONS,POST")]
    body :=
      jsonStringify
        [("upload_url", uploadUrl), ("bucket", TARGET_BUCKET), ("file_key", fileKey)] }

/-- The envelope of source lines 40 to 47. -/
def failureEnvelope : Envelope :=
  { statusCode := 500
    headers :=
      [("Content-Type", "application/json"),
       ("Access-Control-Allow-Origin", "*")]
    body := jsonStringify [("message", "Failed to generate URL")] }

/-- The `try` block (source lines 11 to 36): its completion, normal or abrupt,
and the `getSignedUrl` calls made on the way. -/
def tryBlock (host : Host) (event : JsValue) : Except JsError Envelope × List SignCall :=
  match computeFileKey host event with
  | .error e => (.error e, [])
  | .ok fileKey =>
    let command : PutObjectCommand := { Bucket := TARGET_BUCKET, Key := fileKey }
    let options : PresignOptions := { expiresIn := 3600 }
    match host.getSignedUrl s3 command options with
    | .error e => (.error e, [⟨s3, command, options⟩])
    | .ok uploadUrl => (.ok (successEnvelope uploadUrl fileKey), [⟨s3, command, options⟩])

/-- One finished invocation: how the promise settled, the `getSignedUrl` calls
made, and the arguments of each `console.error` call. -/
structure Completion where
  result : Except JsError Envelope
  signCalls : List SignCall
  errorLog : List (String × JsError)

/-- The exported `handler` (source lines 9 to 49): the `try` block, and the
`catch` clause that logs the error and returns the failure envelope. -/
def handler (host : Host) (event : JsValue) : Completion :=
  match tryBlock host event with
  | (.ok response, calls) => { result := .ok response, signCalls := calls, errorLog := [] }
  | (.error error, calls) =>
    { result := .ok failureEnvelope
      signCalls := calls
      errorLog := [("Error generating presigned URL:", error)] }

/-! ## Concrete collaborators and events for the examples -/

/-- `JSON.parse` on the request texts used in the examples; any other text is
reported as a syntax error here.  Every general theorem below is proved for an
arbitrary `jsonParse`; this table only supplies concrete instances. -/
def exampleParse (text : String) : Except JsError Json :=
  if text = "\x7b\"filename\":\"photo.png\"\x7d" then
    .ok (.obj [("filename", .str "photo.png")])
  else if text = "\x7b\"filename\":\"photo.png\",\"size\":10\x7d" then
    .ok (.obj [("filename", .str "photo.png"), ("size", .num "10")])
  else if text = "\x7b\"filename\":\"a/../b\"\x7d" then
    .ok (.obj [("filename", .str "a/../b")])
  else if text = "\x7b\"filename\":\"\"\x7d" then
    .ok (.obj [("filename", .str "")])
  else if text = "\x7b\x7d" then
    .ok (.obj [])
  else if text = "\x7b\"name\":\"x\"\x7d" then
    .ok (.obj [("name", .str "x")])
  else if text = "\x7b\"filename\":\x7b\"toString\":1\x7d\x7d" then
    .ok (.obj [("filename", .obj [("toString", .num "1")])])
  else if text = "null" then
    .ok .null
  else
    .error (.syntaxError "Unexpected token in JSON")

/-- A signer that returns a URL for every request. -/
def signerOk (_client : S3Client) (command : PutObjectCommand) (options : PresignOptions) :
    Except JsError String :=
  .ok ("https://" ++ command.Bucket ++ ".s3.ap-northeast-2.amazonaws.com/" ++ command.Key ++
    "?X-Amz-Expires=" ++ toString options.expiresIn)

/-- A signer that fails for every request. -/
def signerDenied (_client : S3Client) (_command : PutObjectCommand)
    (_options : PresignOptions) : Except JsError String :=
  .error (.other "CredentialsProviderError" "Could not load credentials from any providers")

/-- The example host whose signer succeeds. -/
def hostOk : Host := { jsonParse := exampleParse, getSignedUrl := signerOk }

/-- The example host whose signer fails. -/
def hostDenied : Host := { jsonParse := exampleParse, getSignedUrl := signerDenied }

/-- The event `{ body: text }`. -/
def eventWithBody (text : String) : JsValue :=
  some (.obj [("body", .str text)])

/-- The `getSignedUrl` call the handler makes for a key: the module's client,
the fixed bucket, and an expiry of 3600 seconds. -/
def signCallFor (fileKey : String) : SignCall :=
  ⟨s3, { Bucket := TARGET_BUCKET, Key := fileKey }, { expiresIn := 3600 }⟩

/-! ## General lemmas -/

theorem handler_of_try_ok {host : Host} {event : JsValue} {response : Envelope}
    {calls : List SignCall} (h : tryBlock host event = (.ok response, calls)) :
    handler host event = { result := .ok response, signCalls := calls, errorLog := [] } := by
  simp [handler, h]

theorem handler_of_try_error {host : Host} {event : JsValue} {error : JsError}
    {calls : List SignCall} (h : tryBlock host event = (.error error, calls)) :
    handler host event =
      { result := .ok failureEnvelope, signCalls := calls,
        errorLog := [("Error generating presigned URL:", error)] } := by
  simp [handler, h]

theorem tryBlock_of_key_error {host : Host} {event : JsValue} {e : JsError}
    (h : computeFileKey host event = .error e) :
    tryBlock host event = (.error e, []) := by
  simp [tryBlock, h]

theorem tryBlock_of_sign_error {host : Host} {event : JsValue} {fileKey : String}
    {e : JsError} (hkey : computeFileKey host event = .ok fileKey)
    (hsign : host.getSignedUrl s3 { Bucket := TARGET_BUCKET, Key := fileKey }
      { expiresIn := 3600 } = .error e) :
    tryBlock host event = (.error e, [signCallFor fileKey]) := by
  simp [tryBlock, hkey, hsign, signCallFor]

theorem tryBlock_of_sign_ok {host : Host} {event : JsValue} {fileKey uploadUrl : String}
    (hkey : computeFileKey host event = .ok fileKey)
    (hsign : host.getSignedUrl s3 { Bucket := TARGET_BUCKET, Key := fileKey }
      { expiresIn := 3600 } = .ok uploadUrl) :
    tryBlock host event = (.ok (successEnvelope uploadUrl fileKey), [signCallFor fileKey]) := by
  simp [tryBlock, hkey, hsign, signCallFor]

/-- The handler's promise always resolves, with the success envelope of some
URL and key or with the failure envelope. -/
theorem handler_result_cases (host : Host) (event : JsValue) :
    (∃ uploadUrl fileKey,
        computeFileKey host event = .ok fileKey ∧
        host.getSignedUrl s3 { Bucket := TARGET_BUCKET, Key := fileKey }
          { expiresIn := 3600 } = .ok uploadUrl ∧
        (handler host event).result = .ok (successEnvelope uploadUrl fileKey)) ∨
      (∃ e, (tryBlock host event).1 = .error e ∧
        (handler host event).result = .ok failureEnvelope) := by
  cases hkey : computeFileKey host event with
  | error e =>
    right
    have h := tryBlock_of_key_error hkey
    exact ⟨e, by simp [h], by simp [handler_of_try_error h]⟩
  | ok fileKey =>
    cases hsign : host.getSignedUrl s3 { Bucket := TARGET_BUCKET, Key := fileKey }
        { expiresIn := 3600 } with
    | error e =>
      right
      have h := tryBlock_of_sign_error hkey hsign
      exact ⟨e, by simp [h], by simp [handler_of_try_error h]⟩
    | ok uploadUrl =>
      left
      have h := tryBlock_of_sign_ok hkey hsign
      exact ⟨uploadUrl, fileKey, rfl, hsign, by simp [handler_of_try_ok h]⟩

theorem failureEnvelope_body :
    failureEnvelope.body = "\x7b\"message\":\"Failed to generate URL\"\x7d" := by
  decide

theorem parseEventBody_of_text {host : Host} {event rawBody : JsValue} {text : String}
    (hbody : getProp event "body" = .ok rawBody) (htext : toJsString rawBody = .ok text) :
    parseEventBody host event = host.jsonParse text := by
  simp [parseEventBody, hbody, htext]

theorem computeFileKey_of_parse_error {host : Host} {event : JsValue} {e : JsError}
    (h : parseEventBody host event = .error e) : computeFileKey host event = .error e := by
  simp [computeFileKey, h]

theorem computeFileKey_of_name {host : Host} {event : JsValue} {body : Json}
    {originalFileName : JsValue} {name : String}
    (hparse : parseEventBody host event = .ok body)
    (hprop : getProp (some body) "filename" = .ok originalFileName)
    (hname : toJsString originalFileName = .ok name) :
    computeFileKey host event = .ok ("Upload/" ++ name) := by
  simp [computeFileKey, hparse, hprop, hname]

theorem getProp_of_ne_null (body : Json) (name : String) (h : body ≠ .null) :
    ∃ v, getProp (some body) name = .ok v := by
  cases body with
  | null => exact absurd rfl h
  | bool b => exact ⟨none, rfl⟩
  | num r => exact ⟨none, rfl⟩
  | str s => exact ⟨none, rfl⟩
  | arr items => exact ⟨none, rfl⟩
  | obj members => exact ⟨ownProperty name members, rfl⟩

theorem handler_result_of_try_error {host : Host} {event : JsValue} {e : JsError}
    (h : (tryBlock host event).1 = .error e) :
    (handler host event).result = .ok failureEnvelope := by
  have h2 : tryBlock host event = (.error e, (tryBlock host event).2) := by
    rw [← h]
  rw [handler_of_try_error h2]

theorem handler_of_name {host : Host} {event : JsValue} {body : Json}
    {originalFileName : JsValue} {name : String}
    (hparse : parseEventBody host event = .ok body)
    (hprop : getProp (some body) "filename" = .ok originalFileName)
    (hname : toJsString originalFileName = .ok name) :
    (handler host event).signCalls = [signCallFor ("Upload/" ++ name)] ∧
    (∀ e, host.getSignedUrl s3 { Bucket := TARGET_BUCKET, Key := "Upload/" ++ name }
        { expiresIn := 3600 } = .error e →
      (handler host event).result = .ok failureEnvelope) ∧
    (∀ u, host.getSignedUrl s3 { Bucket := TARGET_BUCKET, Key := "Upload/" ++ name }
        { expiresIn := 3600 } = .ok u →
      (handler host event).result = .ok (successEnvelope u ("Upload/" ++ name))) := by
  have hkey := computeFileKey_of_name hparse hprop hname
  refine ⟨?_, ?_, ?_⟩
  · cases hsign : host.getSignedUrl s3 { Bucket := TARGET_BUCKET, Key := "Upload/" ++ name }
        { expiresIn := 3600 } with
    | error e => rw [handler_of_try_error (tryBlock_of_sign_error hkey hsign)]
    | ok u => rw [handler_of_try_ok (tryBlock_of_sign_ok hkey hsign)]
  · intro e hsign
    rw [handler_of_try_error (tryBlock_of_sign_error hkey hsign)]
  · intro u hsign
    rw [handler_of_try_ok (tryBlock_of_sign_ok hkey hsign)]

theorem computeFileKey_ok_iff (host : Host) (event : JsValue) (fileKey : String) :
    computeFileKey host event = .ok fileKey ↔
      ∃ body originalFileName name,
        parseEventBody host event = .ok body ∧
        getProp (some body) "filename" = .ok originalFileName ∧
        toJsString originalFileName = .ok name ∧ fileKey = "Upload/" ++ name := by
  constructor
  · intro h
    unfold computeFileKey at h
    cases hparse : parseEventBody host event with
    | error e => simp [hparse] at h
    | ok body =>
      cases hprop : getProp (some body) "filename" with
      | error e => simp [hparse, hprop] at h
      | ok v =>
        cases hname : toJsString v with
        | error e => simp [hparse, hprop, hname] at h
        | ok name =>
          simp [hparse, hprop, hname] at h
          exact ⟨body, v, name, rfl, hprop, hname, h.symm⟩
  · rintro ⟨body, v, name, hparse, hprop, hname, rfl⟩
    exact computeFileKey_of_name hparse hprop hname

theorem getProp_ok_ne_null {body : Json} {name : String} {v : JsValue}
    (h : getProp (some body) name = .ok v) : body ≠ .null := by
  intro hnull
  rw [hnull] at h
  simp [getProp] at h

theorem handler_of_name_error {host : Host} {event : JsValue} {body : Json}
    {originalFileName : JsValue} {e : JsError}
    (hparse : parseEventBody host event = .ok body)
    (hprop : getProp (some body) "filename" = .ok originalFileName)
    (hname : toJsString originalFileName = .error e) :
    handler host event =
      { result := .ok failureEnvelope, signCalls := [],
        errorLog := [("Error generating presigned URL:", e)] } := by
  have hkey : computeFileKey host event = .error e := by
    simp [computeFileKey, hparse, hprop, hname]
  exact handler_of_try_error (tryBlock_of_key_error hkey)

theorem handler_always_resolves (host : Host) (event : JsValue) :
    ∃ response : Envelope,
      (handler host event).result = .ok response ∧
      (response.statusCode = 200 ∨ response.statusCode = 500) := by
  rcases handler_result_cases host event with ⟨u, k, _, _, h⟩ | ⟨e, _, h⟩
  · exact ⟨successEnvelope u k, h, Or.inl rfl⟩
  · exact ⟨failureEnvelope, h, Or.inr rfl⟩

/-- Inside `join` an element renders as its `ToString`, except `null`, which
renders as the empty string. -/
theorem joinElement_eq (j : Json) :
    joinElement j = match j with
      | .null => .ok ""
      | other => other.toJsString := by
  cases j with
  | null => rfl
  | bool b => cases b <;> rfl
  | num r => rfl
  | str s => rfl
  | arr items => simp [joinElement, Json.toJsString]
  | obj members => simp [joinElement, Json.toJsString]

/-! ## Worked examples -/

/-- The scenario of the specification: the request `{"filename":"photo.png"}`
with a signer that returns a URL. -/
theorem example_photo_png :
    (handler hostOk (eventWithBody "\x7b\"filename\":\"photo.png\"\x7d")).result =
      .ok { statusCode := 200
            headers :=
              [("Content-Type", "application/json"),
               ("Access-Control-Allow-Origin", "*"),
               ("Access-Control-Allow-Methods", "OPTIONS,POST")]
            body :=
              "\x7b\"upload_url\":\"https://fit-bool-p.s3.ap-northeast-2.amazonaws.com/" ++
                "Upload/photo.png?X-Amz-Expires=3600\",\"bucket\":\"fit-bool-p\"," ++
                "\"file_key\":\"Upload/photo.png\"\x7d" } ∧
    (handler hostOk (eventWithBody "\x7b\"filename\":\"photo.png\"\x7d")).errorLog = [] :=
  ⟨rfl, rfl⟩

/-- An event without a `body`: `JSON.parse(undefined)` parses the text
`undefined`, which is not JSON. -/
theorem example_absent_body :
    parseEventBody hostOk (some (.obj [])) =
      .error (.syntaxError "Unexpected token in JSON") ∧
    (handler hostOk (some (.obj []))).result = .ok failureEnvelope ∧
    (handler hostOk (some (.obj []))).signCalls = [] :=
  ⟨rfl, rfl, rfl⟩

/-- The body text `null` parses to `null`; reading `.filename` of it throws a
`TypeError`, which the `catch` turns into the failure envelope. -/
theorem example_null_body :
    parseEventBody hostOk (eventWithBody "null") = .ok .null ∧
    handler hostOk (eventWithBody "null") =
      { result := .ok failureEnvelope
        signCalls := []
        errorLog :=
          [("Error generating presigned URL:",
            .typeError "Cannot read properties of null (reading filename)")] } :=
  ⟨rfl, rfl⟩

/-- No event at all: reading `event.body` throws inside the `try` block. -/
theorem example_undefined_event :
    handler hostOk none =
      { result := .ok failureEnvelope
        signCalls := []
        errorLog :=
          [("Error generating presigned URL:",
            .typeError "Cannot read properties of undefined (reading body)")] } :=
  rfl

/-- A filename with a quotation mark is used verbatim in the key and escaped
only inside the serialised body. -/
theorem example_quote_in_body :
    (successEnvelope "u" "Upload/a\"b").body =
      "\x7b\"upload_url\":\"u\",\"bucket\":\"fit-bool-p\"," ++
        "\"file_key\":\"Upload/a\\\"b\"\x7d" := by
  decide

/-! ## The claims -/

/-- C1: for every event and every behaviour of `JSON.parse` and of the signer,
the handler's promise resolves (it never rejects) with one envelope, whose
status code is 200 or 500. -/
theorem handler_always_returns_envelope (host : Host) (event : JsValue) :
    (∀ e, (handler host event).result ≠ .error e) ∧
    ∃ response : Envelope,
      (handler host event).result = .ok response ∧
      (response.statusCode = 200 ∨ response.statusCode = 500) := by
  rcases handler_result_cases host event with ⟨u, k, _, _, h⟩ | ⟨e, _, h⟩
  · exact ⟨fun e he => (by rw [h] at he; cases he), successEnvelope u k, h, Or.inl rfl⟩
  · exact ⟨fun e he => (by rw [h] at he; cases he), failureEnvelope, h, Or.inr rfl⟩

/-- C3: when the text of `event.body` is rejected by `JSON.parse`, the handler
returns status 500 with the body `{"message":"Failed to generate URL"}` and
makes no call to the signer. -/
theorem invalid_json_gives_500 (host : Host) (event rawBody : JsValue) (text : String)
    (e : JsError) (hbody : getProp event "body" = .ok rawBody)
    (htext : toJsString rawBody = .ok text) (hparse : host.jsonParse text = .error e) :
    ∃ response : Envelope,
      (handler host event).result = .ok response ∧
      response.statusCode = 500 ∧
      response.body = "\x7b\"message\":\"Failed to generate URL\"\x7d" ∧
      (handler host event).signCalls = [] := by
  have h1 : parseEventBody host event = .error e := by
    rw [parseEventBody_of_text hbody htext, hparse]
  have h2 := tryBlock_of_key_error (computeFileKey_of_parse_error h1)
  refine ⟨failureEnvelope, ?_, rfl, failureEnvelope_body, ?_⟩ <;>
    simp [handler_of_try_error h2]

/-- Witness for C3: the body text `{"filename":` is not valid JSON. -/
theorem invalid_json_gives_500_witness :
    getProp (eventWithBody "\x7b\"filename\":") "body" = .ok (some (.str "\x7b\"filename\":")) ∧
    hostOk.jsonParse "\x7b\"filename\":" = .error (.syntaxError "Unexpected token in JSON") ∧
    ∃ response : Envelope,
      (handler hostOk (eventWithBody "\x7b\"filename\":")).result = .ok response ∧
      response.statusCode = 500 ∧
      response.body = "\x7b\"message\":\"Failed to generate URL\"\x7d" ∧
      (handler hostOk (eventWithBody "\x7b\"filename\":")).signCalls = [] :=
  ⟨rfl, rfl,
    invalid_json_gives_500 hostOk (eventWithBody "\x7b\"filename\":")
      (some (.str "\x7b\"filename\":")) "\x7b\"filename\":"
      (.syntaxError "Unexpected token in JSON") rfl rfl rfl⟩

/-- C5: on every path the returned headers hold `Access-Control-Allow-Origin`
with value `*` and `Content-Type` with value `application/json`. -/
theorem headers_always_cors_and_json (host : Host) (event : JsValue) :
    ∃ response : Envelope,
      (handler host event).result = .ok response ∧
      response.headers.lookup "Access-Control-Allow-Origin" = some "*" ∧
      response.headers.lookup "Content-Type" = some "application/json" ∧
      ("Access-Control-Allow-Origin", "*") ∈ response.headers ∧
      ("Content-Type", "application/json") ∈ response.headers := by
  rcases handler_result_cases host event with ⟨u, k, _, _, h⟩ | ⟨e, _, h⟩
  · exact ⟨successEnvelope u k, h, rfl, rfl, by simp [successEnvelope],
      by simp [successEnvelope]⟩
  · exact ⟨failureEnvelope, h, rfl, rfl, by simp [failureEnvelope],
      by simp [failureEnvelope]⟩

/-- C7: any two runs whose `try` block throws, whatever the hosts, the events
and the two errors, return the same envelope: status 500, the two headers
`Content-Type: application/json` and `Access-Control-Allow-Origin: *`, and the
body `{"message":"Failed to generate URL"}`. -/
theorem uniform_error_collapse (host₁ host₂ : Host) (event₁ event₂ : JsValue)
    (e₁ e₂ : JsError) (h₁ : (tryBlock host₁ event₁).1 = .error e₁)
    (h₂ : (tryBlock host₂ event₂).1 = .error e₂) :
    (handler host₁ event₁).result = (handler host₂ event₂).result ∧
    (handler host₁ event₁).result =
      .ok { statusCode := 500
            headers :=
              [("Content-Type", "application/json"), ("Access-Control-Allow-Origin", "*")]
            body := "\x7b\"message\":\"Failed to generate URL\"\x7d" } := by
  rw [handler_result_of_try_error h₁, handler_result_of_try_error h₂]
  exact ⟨rfl, rfl⟩

/-- Witness for C7: a syntax error in the body and a credentials error of the
signer give the same envelope. -/
theorem uniform_error_collapse_witness :
    (tryBlock hostOk (eventWithBody "not json")).1 =
      .error (.syntaxError "Unexpected token in JSON") ∧
    (tryBlock hostDenied (eventWithBody "\x7b\"filename\":\"photo.png\"\x7d")).1 =
      .error (.other "CredentialsProviderError"
        "Could not load credentials from any providers") ∧
    (handler hostOk (eventWithBody "not json")).result =
      (handler hostDenied (eventWithBody "\x7b\"filename\":\"photo.png\"\x7d")).result ∧
    (handler hostOk (eventWithBody "not json")).result =
      .ok { statusCode := 500
            headers :=
              [("Content-Type", "application/json"), ("Access-Control-Allow-Origin", "*")]
            body := "\x7b\"message\":\"Failed to generate URL\"\x7d" } :=
  ⟨rfl, rfl,
    uniform_error_collapse hostOk hostDenied (eventWithBody "not json")
      (eventWithBody "\x7b\"filename\":\"photo.png\"\x7d")
      (.syntaxError "Unexpected token in JSON")
      (.other "CredentialsProviderError" "Could not load credentials from any providers")
      rfl rfl⟩

/-- C6: when the body parses, the filename value converts to the string `f` and
the signer returns the URL `u`, the envelope has status 200, exactly the three
headers `Content-Type: application/json`, `Access-Control-Allow-Origin: *`,
`Access-Control-Allow-Methods: OPTIONS,POST`, and its body is the serialisation
of the object with exactly the fields `upload_url = u`, `bucket = "fit-bool-p"`
and `file_key`; the bucket is the same for every `f`. -/
theorem success_envelope_shape (host : Host) (event : JsValue) (body : Json)
    (originalFileName : JsValue) (f u : String)
    (hparse : parseEventBody host event = .ok body)
    (hprop : getProp (some body) "filename" = .ok originalFileName)
    (hname : toJsString originalFileName = .ok f)
    (hsign : host.getSignedUrl s3 { Bucket := "fit-bool-p", Key := "Upload/" ++ f }
      { expiresIn := 3600 } = .ok u) :
    (handler host event).result =
      .ok { statusCode := 200
            headers :=
              [("Content-Type", "application/json"),
               ("Access-Control-Allow-Origin", "*"),
               ("Access-Control-Allow-Methods", "OPTIONS,POST")]
            body :=
              jsonStringify
                [("upload_url", u), ("bucket", "fit-bool-p"), ("file_key", "Upload/" ++ f)] } :=
  (handler_of_name hparse hprop hname).2.2 u hsign

/-- Witness for C6: the request `{"filename":"photo.png"}` with a signer that
returns a URL. -/
theorem success_envelope_shape_witness :
    parseEventBody hostOk (eventWithBody "\x7b\"filename\":\"photo.png\"\x7d") =
      .ok (.obj [("filename", .str "photo.png")]) ∧
    (handler hostOk (eventWithBody "\x7b\"filename\":\"photo.png\"\x7d")).result =
      .ok { statusCode := 200
            headers :=
              [("Content-Type", "application/json"),
               ("Access-Control-Allow-Origin", "*"),
               ("Access-Control-Allow-Methods", "OPTIONS,POST")]
            body :=
              jsonStringify
                [("upload_url",
                    "https://fit-bool-p.s3.ap-northeast-2.amazonaws.com/Upload/photo.png" ++
                      "?X-Amz-Expires=3600"),
                 ("bucket", "fit-bool-p"), ("file_key", "Upload/" ++ "photo.png")] } :=
  ⟨rfl,
    success_envelope_shape hostOk (eventWithBody "\x7b\"filename\":\"photo.png\"\x7d")
      (.obj [("filename", .str "photo.png")]) (some (.str "photo.png")) "photo.png"
      ("https://fit-bool-p.s3.ap-northeast-2.amazonaws.com/Upload/photo.png" ++
        "?X-Amz-Expires=3600")
      rfl rfl rfl rfl⟩

/-- C2: when `event.body` parses to an object whose `filename` is the
non-empty string `f`, the key is exactly `"Upload/" ++ f`; that string is the
`Key` of the one `getSignedUrl` call, and when the signer returns a URL it is
the `file_key` field of the serialised body. -/
theorem key_is_prefix_plus_filename (host : Host) (event : JsValue)
    (members : List (String × Json)) (f : String)
    (hparse : parseEventBody host event = .ok (.obj members))
    (hfile : ownProperty "filename" members = some (.str f)) (_hne : f ≠ "") :
    computeFileKey host event = .ok ("Upload/" ++ f) ∧
    (handler host event).signCalls =
      [⟨s3, { Bucket := "fit-bool-p", Key := "Upload/" ++ f }, { expiresIn := 3600 }⟩] ∧
    ∀ u, host.getSignedUrl s3 { Bucket := "fit-bool-p", Key := "Upload/" ++ f }
        { expiresIn := 3600 } = .ok u →
      ∃ response : Envelope,
        (handler host event).result = .ok response ∧
        response.statusCode = 200 ∧
        response.body =
          jsonStringify
            [("upload_url", u), ("bucket", "fit-bool-p"), ("file_key", "Upload/" ++ f)] := by
  have hprop : getProp (some (Json.obj members)) "filename" = .ok (some (.str f)) := by
    simp [getProp, hfile]
  have hname : toJsString (some (Json.str f)) = .ok f := rfl
  have h := handler_of_name hparse hprop hname
  refine ⟨computeFileKey_of_name hparse hprop hname, h.1, ?_⟩
  intro u hsign
  exact ⟨successEnvelope u ("Upload/" ++ f), h.2.2 u hsign, rfl, rfl⟩

/-- Witness for C2: the filename `photo.png` gives the key and the `file_key`
`Upload/photo.png`. -/
theorem key_is_prefix_plus_filename_witness :
    parseEventBody hostOk (eventWithBody "\x7b\"filename\":\"photo.png\"\x7d") =
      .ok (.obj [("filename", .str "photo.png")]) ∧
    computeFileKey hostOk (eventWithBody "\x7b\"filename\":\"photo.png\"\x7d") =
      .ok "Upload/photo.png" ∧
    (handler hostOk (eventWithBody "\x7b\"filename\":\"photo.png\"\x7d")).signCalls =
      [⟨s3, { Bucket := "fit-bool-p", Key := "Upload/photo.png" }, { expiresIn := 3600 }⟩] :=
  ⟨rfl,
    (key_is_prefix_plus_filename hostOk
      (eventWithBody "\x7b\"filename\":\"photo.png\"\x7d")
      [("filename", .str "photo.png")] "photo.png" rfl rfl (by decide)).1,
    (key_is_prefix_plus_filename hostOk
      (eventWithBody "\x7b\"filename\":\"photo.png\"\x7d")
      [("filename", .str "photo.png")] "photo.png" rfl rfl (by decide)).2.1⟩

/-- C9: two events whose bodies parse to objects with the same `filename`
value (the same value, or absent in both), whatever their other members, lead
under the same host to the same `getSignedUrl` calls and to equal results. -/
theorem only_filename_is_read (host : Host) (event₁ event₂ : JsValue)
    (members₁ members₂ : List (String × Json))
    (h₁ : parseEventBody host event₁ = .ok (.obj members₁))
    (h₂ : parseEventBody host event₂ = .ok (.obj members₂))
    (hsame : ownProperty "filename" members₁ = ownProperty "filename" members₂) :
    (handler host event₁).signCalls = (handler host event₂).signCalls ∧
    (handler host event₁).result = (handler host event₂).result := by
  have hkey : computeFileKey host event₁ = computeFileKey host event₂ := by
    simp [computeFileKey, h₁, h₂, getProp, hsame]
  have htry : tryBlock host event₁ = tryBlock host event₂ := by
    simp [tryBlock, hkey]
  simp [handler, htry]

/-- Witness for C9: `{"filename":"photo.png"}` and
`{"filename":"photo.png","size":10}` are handled alike. -/
theorem only_filename_is_read_witness :
    (handler hostOk (eventWithBody "\x7b\"filename\":\"photo.png\"\x7d")).signCalls =
      (handler hostOk
        (eventWithBody "\x7b\"filename\":\"photo.png\",\"size\":10\x7d")).signCalls ∧
    (handler hostOk (eventWithBody "\x7b\"filename\":\"photo.png\"\x7d")).result =
      (handler hostOk
        (eventWithBody "\x7b\"filename\":\"photo.png\",\"size\":10\x7d")).result :=
  only_filename_is_read hostOk (eventWithBody "\x7b\"filename\":\"photo.png\"\x7d")
    (eventWithBody "\x7b\"filename\":\"photo.png\",\"size\":10\x7d")
    [("filename", .str "photo.png")]
    [("filename", .str "photo.png"), ("size", .num "10")] rfl rfl rfl

/-- C4, as stated, fails: the body `{}` is valid JSON without a `filename`
member, and with a signer that returns a URL the handler answers 200 with
`file_key` `Upload/undefined`, not 500. -/
theorem missing_filename_not_500 :
    parseEventBody hostOk (eventWithBody "\x7b\x7d") = .ok (.obj []) ∧
    ownProperty "filename" [] = none ∧
    (handler hostOk (eventWithBody "\x7b\x7d")).result =
      .ok { statusCode := 200
            headers :=
              [("Content-Type", "application/json"),
               ("Access-Control-Allow-Origin", "*"),
               ("Access-Control-Allow-Methods", "OPTIONS,POST")]
            body :=
              "\x7b\"upload_url\":\"https://fit-bool-p.s3.ap-northeast-2.amazonaws.com/" ++
                "Upload/undefined?X-Amz-Expires=3600\",\"bucket\":\"fit-bool-p\"," ++
                "\"file_key\":\"Upload/undefined\"\x7d" } ∧
    ¬ ∃ response : Envelope,
        (handler hostOk (eventWithBody "\x7b\x7d")).result = .ok response ∧
        response.statusCode = 500 := by
  refine ⟨rfl, rfl, rfl, ?_⟩
  rintro ⟨response, hres, hstatus⟩
  have h : (handler hostOk (eventWithBody "\x7b\x7d")).result =
      .ok (successEnvelope
        ("https://fit-bool-p.s3.ap-northeast-2.amazonaws.com/Upload/undefined" ++
          "?X-Amz-Expires=3600") "Upload/undefined") := rfl
  rw [h] at hres
  injection hres with hres
  rw [← hres] at hstatus
  exact absurd hstatus (by decide)

/-- C4, amended: when `event.body` parses to an object without a `filename`
member, the handler asks the signer once for the key `Upload/undefined`; it
returns the 500 envelope with the generic message when the signer fails, and
the 200 envelope with `file_key` `Upload/undefined` when the signer returns a
URL. -/
theorem missing_filename_key_undefined (host : Host) (event : JsValue)
    (members : List (String × Json))
    (hparse : parseEventBody host event = .ok (.obj members))
    (hfile : ownProperty "filename" members = none) :
    (handler host event).signCalls =
      [⟨s3, { Bucket := "fit-bool-p", Key := "Upload/undefined" }, { expiresIn := 3600 }⟩] ∧
    (∀ e, host.getSignedUrl s3 { Bucket := "fit-bool-p", Key := "Upload/undefined" }
        { expiresIn := 3600 } = .error e →
      (handler host event).result =
        .ok { statusCode := 500
              headers :=
                [("Content-Type", "application/json"), ("Access-Control-Allow-Origin", "*")]
              body := "\x7b\"message\":\"Failed to generate URL\"\x7d" }) ∧
    (∀ u, host.getSignedUrl s3 { Bucket := "fit-bool-p", Key := "Upload/undefined" }
        { expiresIn := 3600 } = .ok u →
      (handler host event).result =
        .ok { statusCode := 200
              headers :=
                [("Content-Type", "application/json"),
                 ("Access-Control-Allow-Origin", "*"),
                 ("Access-Control-Allow-Methods", "OPTIONS,POST")]
              body :=
                jsonStringify
                  [("upload_url", u), ("bucket", "fit-bool-p"),
                   ("file_key", "Upload/undefined")] }) := by
  have hprop : getProp (some (Json.obj members)) "filename" = .ok none := by
    simp [getProp, hfile]
  have hname : toJsString none = .ok "undefined" := rfl
  have h := handler_of_name hparse hprop hname
  exact ⟨h.1, fun e hsign => h.2.1 e hsign, fun u hsign => h.2.2 u hsign⟩

/-- Witness for C4 amended: the body `{"name":"x"}` with a signer that
fails. -/
theorem missing_filename_key_undefined_witness :
    parseEventBody hostDenied (eventWithBody "\x7b\"name\":\"x\"\x7d") =
      .ok (.obj [("name", .str "x")]) ∧
    ownProperty "filename" [("name", Json.str "x")] = none ∧
    (handler hostDenied (eventWithBody "\x7b\"name\":\"x\"\x7d")).signCalls =
      [⟨s3, { Bucket := "fit-bool-p", Key := "Upload/undefined" }, { expiresIn := 3600 }⟩] ∧
    (handler hostDenied (eventWithBody "\x7b\"name\":\"x\"\x7d")).result =
      .ok { statusCode := 500
            headers :=
              [("Content-Type", "application/json"), ("Access-Control-Allow-Origin", "*")]
            body := "\x7b\"message\":\"Failed to generate URL\"\x7d" } :=
  ⟨rfl, rfl,
    (missing_filename_key_undefined hostDenied (eventWithBody "\x7b\"name\":\"x\"\x7d")
      [("name", .str "x")] rfl rfl).1,
    (missing_filename_key_undefined hostDenied (eventWithBody "\x7b\"name\":\"x\"\x7d")
      [("name", .str "x")] rfl rfl).2.1
      (.other "CredentialsProviderError" "Could not load credentials from any providers")
      rfl⟩

/-- C8, as stated, fails: the body `{"filename":{"toString":1}}` parses to a
non-null value, but the template literal cannot convert the filename object to
a string (its own `toString` member is not callable), so the `try` block
throws before the signer is reached and no call is made. -/
theorem unconvertible_filename_never_signed :
    parseEventBody hostOk (eventWithBody "\x7b\"filename\":\x7b\"toString\":1\x7d\x7d") =
      .ok (.obj [("filename", .obj [("toString", .num "1")])]) ∧
    Json.obj [("filename", .obj [("toString", .num "1")])] ≠ Json.null ∧
    (handler hostOk (eventWithBody "\x7b\"filename\":\x7b\"toString\":1\x7d\x7d")).signCalls =
      [] ∧
    (handler hostOk (eventWithBody "\x7b\"filename\":\x7b\"toString\":1\x7d\x7d")).errorLog =
      [("Error generating presigned URL:",
        .typeError "Cannot convert object to primitive value")] :=
  ⟨rfl, fun h => Json.noConfusion h, rfl, rfl⟩

/-- C8, amended: when `event.body` parses to a non-null value whose `filename`
value the template literal converts to the string `name` (the filename itself
when it is a string, `undefined` when it is absent), the handler calls the
signer exactly once, with bucket `fit-bool-p`, key `"Upload/" ++ name` and
expiry 3600; when the conversion throws, the signer is not called. -/
theorem signer_called_once (host : Host) (event : JsValue) (body : Json)
    (originalFileName : JsValue)
    (hparse : parseEventBody host event = .ok body) (_hnull : body ≠ .null)
    (hprop : getProp (some body) "filename" = .ok originalFileName) :
    (∀ name, toJsString originalFileName = .ok name →
      (handler host event).signCalls =
        [⟨s3, { Bucket := "fit-bool-p", Key := "Upload/" ++ name }, { expiresIn := 3600 }⟩]) ∧
    (∀ e, toJsString originalFileName = .error e → (handler host event).signCalls = []) := by
  constructor
  · intro name hname
    exact (handler_of_name hparse hprop hname).1
  · intro e hname
    rw [handler_of_name_error hparse hprop hname]

/-- Witness for C8 amended: the body `{"filename":"a/../b"}` leads to one call
with key `Upload/a/../b`. -/
theorem signer_called_once_witness :
    parseEventBody hostDenied (eventWithBody "\x7b\"filename\":\"a/../b\"\x7d") =
      .ok (.obj [("filename", .str "a/../b")]) ∧
    (handler hostDenied (eventWithBody "\x7b\"filename\":\"a/../b\"\x7d")).signCalls =
      [⟨s3, { Bucket := "fit-bool-p", Key := "Upload/" ++ "a/../b" },
        { expiresIn := 3600 }⟩] :=
  ⟨rfl,
    (signer_called_once hostDenied (eventWithBody "\x7b\"filename\":\"a/../b\"\x7d")
      (.obj [("filename", .str "a/../b")]) (some (.str "a/../b")) rfl
      (fun h => Json.noConfusion h) rfl).1 "a/../b" rfl⟩

/-- C10, as stated, fails: for the body `{"filename":{"toString":1}}` the parse
gives a non-null value and the signer returns a URL for every request, yet the
handler answers 500. -/
theorem parsed_and_signable_yet_500 :
    parseEventBody hostOk (eventWithBody "\x7b\"filename\":\x7b\"toString\":1\x7d\x7d") =
      .ok (.obj [("filename", .obj [("toString", .num "1")])]) ∧
    Json.obj [("filename", .obj [("toString", .num "1")])] ≠ Json.null ∧
    (∀ client command options, ∃ u, hostOk.getSignedUrl client command options = .ok u) ∧
    (handler hostOk (eventWithBody "\x7b\"filename\":\x7b\"toString\":1\x7d\x7d")).result =
      .ok { statusCode := 500
            headers :=
              [("Content-Type", "application/json"), ("Access-Control-Allow-Origin", "*")]
            body := "\x7b\"message\":\"Failed to generate URL\"\x7d" } :=
  ⟨rfl, fun h => Json.noConfusion h, fun _ _ _ => ⟨_, rfl⟩, rfl⟩

/-- C10, amended: the handler returns status 200 if and only if `event.body`
parses to a value other than `null`, the template literal converts its
`filename` value to a string, and the signer returns a URL for the resulting
key; in every other case it returns status 500.  The filename is not
validated: a missing `filename` gives the key `Upload/undefined` and an empty
one the key `Upload/`, and each is sent to the signer. -/
theorem exact_success_condition (host : Host) (event : JsValue) :
    ((∃ response : Envelope,
        (handler host event).result = .ok response ∧ response.statusCode = 200) ↔
      ∃ body originalFileName name u,
        parseEventBody host event = .ok body ∧ body ≠ .null ∧
        getProp (some body) "filename" = .ok originalFileName ∧
        toJsString originalFileName = .ok name ∧
        host.getSignedUrl s3 { Bucket := "fit-bool-p", Key := "Upload/" ++ name }
          { expiresIn := 3600 } = .ok u) ∧
    ((¬ ∃ body originalFileName name u,
        parseEventBody host event = .ok body ∧ body ≠ .null ∧
        getProp (some body) "filename" = .ok originalFileName ∧
        toJsString originalFileName = .ok name ∧
        host.getSignedUrl s3 { Bucket := "fit-bool-p", Key := "Upload/" ++ name }
          { expiresIn := 3600 } = .ok u) →
      ∃ response : Envelope,
        (handler host event).result = .ok response ∧ response.statusCode = 500) ∧
    (∀ members, parseEventBody host event = .ok (.obj members) →
      ownProperty "filename" members = none →
      (handler host event).signCalls =
        [⟨s3, { Bucket := "fit-bool-p", Key := "Upload/undefined" }, { expiresIn := 3600 }⟩] ∧
      ∀ u, host.getSignedUrl s3 { Bucket := "fit-bool-p", Key := "Upload/undefined" }
          { expiresIn := 3600 } = .ok u →
        (handler host event).result = .ok (successEnvelope u "Upload/undefined")) ∧
    (∀ members, parseEventBody host event = .ok (.obj members) →
      ownProperty "filename" members = some (.str "") →
      (handler host event).signCalls =
        [⟨s3, { Bucket := "fit-bool-p", Key := "Upload/" }, { expiresIn := 3600 }⟩]) := by
  have hiff : (∃ response : Envelope,
        (handler host event).result = .ok response ∧ response.statusCode = 200) ↔
      ∃ body originalFileName name u,
        parseEventBody host event = .ok body ∧ body ≠ .null ∧
        getProp (some body) "filename" = .ok originalFileName ∧
        toJsString originalFileName = .ok name ∧
        host.getSignedUrl s3 { Bucket := "fit-bool-p", Key := "Upload/" ++ name }
          { expiresIn := 3600 } = .ok u := by
    constructor
    · rintro ⟨response, hres, hstatus⟩
      rcases handler_result_cases host event with ⟨u, k, hkey, hsign, _⟩ | ⟨e, _, h⟩
      · obtain ⟨body, v, name, hparse, hprop, hname, rfl⟩ :=
          (computeFileKey_ok_iff host event k).1 hkey
        exact ⟨body, v, name, u, hparse, getProp_ok_ne_null hprop, hprop, hname, hsign⟩
      · rw [h] at hres
        injection hres with hres
        rw [← hres] at hstatus
        exact absurd hstatus (by decide)
    · rintro ⟨body, v, name, u, hparse, _, hprop, hname, hsign⟩
      exact ⟨successEnvelope u ("Upload/" ++ name),
        (handler_of_name hparse hprop hname).2.2 u hsign, rfl⟩
  refine ⟨hiff, ?_, ?_, ?_⟩
  · intro hnot
    obtain ⟨response, hres, hstatus⟩ := handler_always_resolves host event
    refine ⟨response, hres, ?_⟩
    rcases hstatus with h200 | h500
    · exact absurd (hiff.1 ⟨response, hres, h200⟩) hnot
    · exact h500
  · intro members hparse hfile
    have hprop : getProp (some (Json.obj members)) "filename" = .ok none := by
      simp [getProp, hfile]
    have h := handler_of_name hparse hprop (rfl : toJsString none = .ok "undefined")
    exact ⟨h.1, h.2.2⟩
  · intro members hparse hfile
    have hprop : getProp (some (Json.obj members)) "filename" = .ok (some (.str "")) := by
      simp [getProp, hfile]
    exact (handler_of_name hparse hprop (rfl : toJsString (some (.str "")) = .ok "")).1

/-- Witness for C10 amended: the body `{"filename":""}` sends the key `Upload/`
to the signer. -/
theorem exact_success_condition_witness :
    parseEventBody hostOk (eventWithBody "\x7b\"filename\":\"\"\x7d") =
      .ok (.obj [("filename", .str "")]) ∧
    (handler hostOk (eventWithBody "\x7b\"filename\":\"\"\x7d")).signCalls =
      [⟨s3, { Bucket := "fit-bool-p", Key := "Upload/" }, { expiresIn := 3600 }⟩] :=
  ⟨rfl,
    (exact_success_condition hostOk (eventWithBody "\x7b\"filename\":\"\"\x7d")).2.2.2
      [("filename", .str "")] rfl rfl⟩

end UrlLambda
